import Mathlib

/-!
Shallow embedding of the academic-records server (gestor-academico2).

The embedded code is the enrollment / student-subject slice of
`src/server/routes.ts` (the POST /api/enrollments and
PATCH /api/student-subjects/:id handlers) together with the store
operations of `src/server/storage.ts` they call.  Database tables are
lists of records; serial ids are explicit counters.  JavaScript's
three-way distinction between an absent field (`undefined`), an explicit
`null` and a value is modelled by `JsVal`; JS truthiness tests that the
handlers perform (`if (status && ...)`, `grade ? ... : null`) are
modelled field by field.  Timestamps are opaque `Nat`s.
-/

namespace Gestor

/-- A JavaScript value slot: absent (`undefined`), explicit `null`, or a value. -/
inductive JsVal (α : Type) where
  | undef
  | null
  | val (a : α)
deriving DecidableEq

/-- Row of the `subjects` table (src/shared/schema.ts). -/
structure Subject where
  id : Nat
  careerId : Nat
  code : String
  name : String
  year : Nat
  hoursCount : Nat
deriving DecidableEq

/-- Row of the `requirements` table: subjectId requires requiredSubjectId. -/
structure Requirement where
  id : Nat
  subjectId : Nat
  requiredSubjectId : Nat
deriving DecidableEq

/-- Row of the `student_subjects` table. `status` is NOT NULL in the schema;
the other data columns are nullable, modelled as `Option`. -/
structure StudentSubject where
  id : Nat
  studentId : Nat
  subjectId : Nat
  status : String
  grade : Option Int
  date : Option Nat
  book : Option String
  folio : Option String
deriving DecidableEq

/-- Row of the `enrollments` table. -/
structure Enrollment where
  id : Nat
  studentId : Nat
  subjectId : Nat
  type : String
  examDate : Option Nat
deriving DecidableEq

/-- The slice of the database state the embedded handlers touch,
with the serial-id counters made explicit. -/
structure Store where
  subjects : List Subject
  requirements : List Requirement
  studentSubjects : List StudentSubject
  enrollments : List Enrollment
  nextStudentSubjectId : Nat
  nextEnrollmentId : Nat
deriving DecidableEq

/-- Body accepted by insertEnrollmentSchema (already zod-validated). -/
structure InsertEnrollment where
  studentId : Nat
  subjectId : Nat
  type : String
  examDate : Option Nat
deriving DecidableEq

/-- Data passed to storage.addStudentSubject. -/
structure InsertStudentSubject where
  studentId : Nat
  subjectId : Nat
  status : String
  grade : Option Int
  date : Option Nat
  book : Option String
  folio : Option String
deriving DecidableEq

/-- DatabaseStorage.getSubject: first row of `subjects` with the given id. -/
def getSubject (st : Store) (id : Nat) : Option Subject :=
  st.subjects.find? (fun s => s.id == id)

/-- DatabaseStorage.getRequirements: rows of `requirements` whose subjectId matches. -/
def getRequirements (st : Store) (subjectId : Nat) : List Requirement :=
  st.requirements.filter (fun r => r.subjectId == subjectId)

/-- DatabaseStorage.getStudentSubjects: rows of `student_subjects` for the student. -/
def getStudentSubjects (st : Store) (studentId : Nat) : List StudentSubject :=
  st.studentSubjects.filter (fun ss => ss.studentId == studentId)

/-- DatabaseStorage.createEnrollment: insert with the next serial id. -/
def createEnrollment (st : Store) (d : InsertEnrollment) : Enrollment × Store :=
  let e : Enrollment :=
    { id := st.nextEnrollmentId, studentId := d.studentId, subjectId := d.subjectId,
      type := d.type, examDate := d.examDate }
  (e, { st with enrollments := st.enrollments ++ [e],
                nextEnrollmentId := st.nextEnrollmentId + 1 })

/-- DatabaseStorage.addStudentSubject: insert with the next serial id. -/
def addStudentSubject (st : Store) (d : InsertStudentSubject) : StudentSubject × Store :=
  let ss : StudentSubject :=
    { id := st.nextStudentSubjectId, studentId := d.studentId, subjectId := d.subjectId,
      status := d.status, grade := d.grade, date := d.date, book := d.book, folio := d.folio }
  (ss, { st with studentSubjects := st.studentSubjects ++ [ss],
                 nextStudentSubjectId := st.nextStudentSubjectId + 1 })

/-- DatabaseStorage.deleteSubject: delete all requirements referencing the
subject on either side, then delete the subject row itself. -/
def deleteSubject (st : Store) (id : Nat) : Store :=
  { st with
      requirements :=
        st.requirements.filter (fun r => !(r.subjectId == id || r.requiredSubjectId == id)),
      subjects := st.subjects.filter (fun s => !(s.id == id)) }

/-- The per-requirement test of the POST /api/enrollments loop:
`studentSubjects.some(ss => ss.subjectId === requirement.requiredSubjectId &&
(ss.status === "acreditada" || ss.status === "regular"))`. -/
def hasCompleted (st : Store) (studentId : Nat) (r : Requirement) : Bool :=
  (getStudentSubjects st studentId).any fun ss =>
    ss.subjectId == r.requiredSubjectId &&
      (ss.status == "acreditada" || ss.status == "regular")

/-- The `for (const requirement of requirements)` loop of POST /api/enrollments:
returns the first requirement whose check fails (the handler returns 400 there),
or `none` when every requirement is satisfied. -/
def findUnmet (st : Store) (studentId : Nat) : List Requirement → Option Requirement
  | [] => none
  | r :: rest =>
      if hasCompleted st studentId r then findUnmet st studentId rest else some r

/-- Outcome of the POST /api/enrollments handler.  `prerequisiteNotMet` carries
the offending requiredSubjectId and the looked-up subject used to build the
`Falta regularizar materia {code} - {name}` message. -/
inductive EnrollResult where
  | subjectNotFound
  | prerequisiteNotMet (requiredSubjectId : Nat) (missing : Option Subject)
  | created (e : Enrollment)
deriving DecidableEq

/-- The POST /api/enrollments handler (src/server/routes.ts lines 527-577):
look up the subject, walk the requirements returning 400 at the first unmet
one, otherwise create the Enrollment and, for type "cursada" only, also a
StudentSubject in state "cursando" with null grade/date/book/folio. -/
def postEnrollment (st : Store) (b : InsertEnrollment) : EnrollResult × Store :=
  match getSubject st b.subjectId with
  | none => (.subjectNotFound, st)
  | some subject =>
      match findUnmet st b.studentId (getRequirements st subject.id) with
      | some r => (.prerequisiteNotMet r.requiredSubjectId (getSubject st r.requiredSubjectId), st)
      | none =>
          let es := createEnrollment st b
          if b.type == "cursada" then
            let ss2 := addStudentSubject es.2
              { studentId := b.studentId, subjectId := b.subjectId, status := "cursando",
                grade := none, date := none, book := none, folio := none }
            (.created es.1, ss2.2)
          else
            (.created es.1, es.2)

/-- Body of PATCH /api/student-subjects/:id, after express JSON parsing:
each field is absent, null, or a value.  Dates are opaque numbers. -/
structure PatchBody where
  status : JsVal String
  grade : JsVal Int
  date : JsVal Nat
  book : JsVal String
  folio : JsVal String
deriving DecidableEq

/-- JS truthiness of the `status` field: a non-empty string. -/
def jsTruthyStr : JsVal String → Bool
  | .val s => !(s == "")
  | _ => false

/-- JS truthiness of the `grade` field: a non-zero number. -/
def jsTruthyInt : JsVal Int → Bool
  | .val n => !(n == 0)
  | _ => false

/-- JS truthiness of the `date` field (a supplied, non-empty date string). -/
def jsSupplied : JsVal Nat → Bool
  | .val _ => true
  | _ => false

/-- The status values the PATCH handler recognizes. -/
def statusValues : List String := ["cursando", "acreditada", "libre"]

/-- Handler guard `if (status && !["cursando","acreditada","libre"].includes(status))`. -/
def invalidStatusCheck (b : PatchBody) : Bool :=
  match b.status with
  | .val s => !(s == "") && !(statusValues.contains s)
  | _ => false

/-- Handler guard `if (status === "acreditada" && !grade)`. -/
def gradeRequiredCheck (b : PatchBody) : Bool :=
  b.status == .val "acreditada" && !(jsTruthyInt b.grade)

/-- Argument object of DatabaseStorage.updateStudentSubject.  Only fields that
are not `undef` are copied into the SQL SET clause. -/
structure UpdateData where
  status : JsVal String
  grade : JsVal Int
  date : JsVal Nat
  book : JsVal String
  folio : JsVal String
deriving DecidableEq

/-- Errors thrown across the store boundary: the row was not found after the
UPDATE, or the UPDATE tried to write NULL into the NOT NULL `status` column. -/
inductive StoreError where
  | notFound
  | notNullViolation
deriving DecidableEq

/-- Effect of one SET item on a nullable column: skip when `undef`,
clear when `null`, overwrite when a value. -/
def jsSetOpt {α : Type} : JsVal α → Option α → Option α
  | .undef, old => old
  | .null, _ => none
  | .val v, _ => some v

/-- Apply an UpdateData to one row.  `status` is NOT NULL in the schema, so an
explicit null there is a constraint violation; `undef` leaves it unchanged. -/
def applyUpdate (row : StudentSubject) (d : UpdateData) : Except StoreError StudentSubject :=
  match d.status with
  | .null => .error .notNullViolation
  | .undef =>
      .ok { row with grade := jsSetOpt d.grade row.grade, date := jsSetOpt d.date row.date,
                     book := jsSetOpt d.book row.book, folio := jsSetOpt d.folio row.folio }
  | .val s =>
      .ok { row with status := s,
                     grade := jsSetOpt d.grade row.grade, date := jsSetOpt d.date row.date,
                     book := jsSetOpt d.book row.book, folio := jsSetOpt d.folio row.folio }

/-- DatabaseStorage.updateStudentSubject (src/server/storage.ts lines 311-341):
UPDATE the row with the given id, throwing when no row matched. -/
def updateStudentSubject (st : Store) (id : Nat) (d : UpdateData) :
    Except StoreError (StudentSubject × Store) :=
  match st.studentSubjects.find? (fun ss => ss.id == id) with
  | none => .error .notFound
  | some row =>
      match applyUpdate row d with
      | .error e => .error e
      | .ok newRow =>
          .ok (newRow,
            { st with studentSubjects :=
                st.studentSubjects.map (fun ss => if ss.id == id then newRow else ss) })

/-- Outcome of the PATCH /api/student-subjects/:id handler. -/
inductive PatchResult where
  | invalidStatus
  | gradeRequired
  | updated (ss : StudentSubject)
  | failed
deriving DecidableEq

/-- The HTTP status code each PATCH outcome is sent with: the two validation
failures are 400, success is 200, and every caught exception (including a
missing row) is the catch-all 500. -/
def patchStatusCode : PatchResult → Nat
  | .invalidStatus => 400
  | .gradeRequired => 400
  | .updated _ => 200
  | .failed => 500

/-- The updateData object the handler builds:
`{ status, grade: grade ? parseInt(grade) : null, date: date ? new Date(date) : null,
book, folio }`.  `grade` and `date` are always present (null when the request
value is falsy); `status`, `book`, `folio` are passed through as-is. -/
def patchUpdateData (b : PatchBody) : UpdateData :=
  { status := b.status,
    grade := match b.grade with
      | .val n => if n == 0 then .null else .val n
      | _ => .null,
    date := match b.date with
      | .val n => .val n
      | _ => .null,
    book := b.book,
    folio := b.folio }

/-- The PATCH /api/student-subjects/:id handler (src/server/routes.ts lines
461-498): validate the status value, require a truthy grade when accrediting,
then delegate to the store; any store exception becomes the 500 catch-all. -/
def patchStudentSubject (st : Store) (id : Nat) (b : PatchBody) : PatchResult × Store :=
  if invalidStatusCheck b then (.invalidStatus, st)
  else if gradeRequiredCheck b then (.gradeRequired, st)
  else
    match updateStudentSubject st id (patchUpdateData b) with
    | .ok (ss, st2) => (.updated ss, st2)
    | .error _ => (.failed, st)

/-! Concrete stores and request bodies used to exercise the handlers. -/

def subjA : Subject :=
  { id := 1, careerId := 1, code := "MAT101", name := "Algebra I", year := 1, hoursCount := 4 }

def subjB : Subject :=
  { id := 2, careerId := 1, code := "MAT102", name := "Analisis I", year := 1, hoursCount := 6 }

def subjC : Subject :=
  { id := 3, careerId := 1, code := "MAT201", name := "Algebra II", year := 2, hoursCount := 4 }

def reqCA : Requirement := { id := 1, subjectId := 3, requiredSubjectId := 1 }

def reqCB : Requirement := { id := 2, subjectId := 3, requiredSubjectId := 2 }

/-- Subject 3 requires subjects 1 and 2; student 1 has no records at all. -/
def storeTwoReqs : Store :=
  { subjects := [subjA, subjB, subjC], requirements := [reqCA, reqCB],
    studentSubjects := [], enrollments := [],
    nextStudentSubjectId := 1, nextEnrollmentId := 1 }

/-- Subject 3 requires subjects 1 and 2; student 1 has subject 1 acreditada
and subject 2 regular, so both requirements are met. -/
def storeMet : Store :=
  { subjects := [subjA, subjB, subjC], requirements := [reqCA, reqCB],
    studentSubjects :=
      [{ id := 1, studentId := 1, subjectId := 1, status := "acreditada", grade := some 8,
         date := none, book := none, folio := none },
       { id := 2, studentId := 1, subjectId := 2, status := "regular", grade := none,
         date := none, book := none, folio := none }],
    enrollments := [], nextStudentSubjectId := 3, nextEnrollmentId := 1 }

def enrollBodyC : InsertEnrollment :=
  { studentId := 1, subjectId := 3, type := "cursada", examDate := none }

def enrollBodyE : InsertEnrollment :=
  { studentId := 1, subjectId := 3, type := "examen", examDate := some 100 }

def rowCursando : StudentSubject :=
  { id := 1, studentId := 1, subjectId := 1, status := "cursando", grade := none,
    date := none, book := none, folio := none }

def storeOneRow : Store :=
  { subjects := [subjA], requirements := [], studentSubjects := [rowCursando],
    enrollments := [], nextStudentSubjectId := 2, nextEnrollmentId := 1 }

/-- One student-subject row that already has a grade, a date, book and folio. -/
def rowGraded : StudentSubject :=
  { id := 1, studentId := 1, subjectId := 1, status := "cursando", grade := some 7,
    date := some 5, book := some "L1", folio := some "F3" }

def storeGraded : Store :=
  { subjects := [subjA], requirements := [], studentSubjects := [rowGraded],
    enrollments := [], nextStudentSubjectId := 2, nextEnrollmentId := 1 }

def emptyStore : Store :=
  { subjects := [], requirements := [], studentSubjects := [], enrollments := [],
    nextStudentSubjectId := 1, nextEnrollmentId := 1 }

def bodyGrade11 : PatchBody :=
  { status := .val "acreditada", grade := .val 11, date := .undef, book := .undef, folio := .undef }

def bodyGrade7 : PatchBody :=
  { status := .val "acreditada", grade := .val 7, date := .undef, book := .undef, folio := .undef }

def bodyLibre : PatchBody :=
  { status := .val "libre", grade := .undef, date := .undef, book := .undef, folio := .undef }

def bodyRegular : PatchBody :=
  { status := .val "regular", grade := .undef, date := .undef, book := .undef, folio := .undef }

/-! Helper lemmas shared by the claim theorems. -/

/-- The requirement loop accepts (returns no unmet requirement) iff every
requirement in the list passes the per-requirement check. -/
theorem findUnmet_eq_none_iff (st : Store) (sid : Nat) (l : List Requirement) :
    findUnmet st sid l = none ↔ ∀ r ∈ l, hasCompleted st sid r = true := by
  induction l with
  | nil => simp [findUnmet]
  | cons r rest ih =>
      cases hc : hasCompleted st sid r with
      | true => simp [findUnmet, hc, ih]
      | false => simp [findUnmet, hc]

/-- When the loop rejects, the returned requirement is the first unmet one:
everything before it in the list passed the check, and it failed. -/
theorem findUnmet_spec (st : Store) (sid : Nat) (l : List Requirement) (r : Requirement)
    (h : findUnmet st sid l = some r) :
    hasCompleted st sid r = false ∧
      ∃ pre post, l = pre ++ r :: post ∧ ∀ r2 ∈ pre, hasCompleted st sid r2 = true := by
  induction l with
  | nil => simp [findUnmet] at h
  | cons a rest ih =>
      cases hc : hasCompleted st sid a with
      | true =>
          simp only [findUnmet, hc, if_true] at h
          obtain ⟨hf, pre, post, hl, hpre⟩ := ih h
          refine ⟨hf, a :: pre, post, by rw [hl]; rfl, ?_⟩
          intro r2 hr2
          rcases List.mem_cons.mp hr2 with h1 | h2
          · rw [h1]; exact hc
          · exact hpre r2 h2
      | false =>
          simp only [findUnmet, hc, Bool.false_eq_true, if_false, Option.some.injEq] at h
          rw [← h]
          exact ⟨hc, [], rest, rfl, by intro r2 hr2; cases hr2⟩

/-- The per-requirement check succeeds iff the store has a row for this
student and the required subject with status acreditada or regular. -/
theorem hasCompleted_iff_row (st : Store) (sid : Nat) (r : Requirement) :
    hasCompleted st sid r = true ↔
      ∃ ss ∈ st.studentSubjects, ss.studentId = sid ∧ ss.subjectId = r.requiredSubjectId ∧
        (ss.status = "acreditada" ∨ ss.status = "regular") := by
  simp only [hasCompleted, getStudentSubjects, List.any_eq_true, List.mem_filter,
    Bool.and_eq_true, Bool.or_eq_true, beq_iff_eq]
  constructor
  · rintro ⟨ss, ⟨hmem, hsid⟩, hsub, hstat⟩
    exact ⟨ss, hmem, hsid, hsub, hstat⟩
  · rintro ⟨ss, hmem, hsid, hsub, hstat⟩
    exact ⟨ss, ⟨hmem, hsid⟩, hsub, hstat⟩

/-! Claim theorems. -/

/-- C1: the prerequisite evaluation used by enroll (the requirement loop of
POST /api/enrollments) reports eligible iff every requirement of the subject
has a StudentSubject row for this student and the required subject whose
status is acreditada or regular; in particular a subject with no Requirement
rows is always eligible. -/
theorem enroll_eligibility_iff (st : Store) (studentId : Nat) (subj : Subject) :
    (findUnmet st studentId (getRequirements st subj.id) = none ↔
      ∀ r ∈ getRequirements st subj.id, ∃ ss ∈ st.studentSubjects,
        ss.studentId = studentId ∧ ss.subjectId = r.requiredSubjectId ∧
          (ss.status = "acreditada" ∨ ss.status = "regular")) ∧
    (getRequirements st subj.id = [] →
      findUnmet st studentId (getRequirements st subj.id) = none) := by
  constructor
  · rw [findUnmet_eq_none_iff]
    constructor
    · intro h r hr
      exact (hasCompleted_iff_row st studentId r).mp (h r hr)
    · intro h r hr
      exact (hasCompleted_iff_row st studentId r).mpr (h r hr)
  · intro h
    rw [h]
    rfl

/-- C1 witness: the iff evaluated at a concrete store and subject. -/
theorem enroll_eligibility_iff_witness :
    (findUnmet storeMet 1 (getRequirements storeMet subjC.id) = none ↔
      ∀ r ∈ getRequirements storeMet subjC.id, ∃ ss ∈ storeMet.studentSubjects,
        ss.studentId = 1 ∧ ss.subjectId = r.requiredSubjectId ∧
          (ss.status = "acreditada" ∨ ss.status = "regular")) ∧
    (getRequirements storeMet subjC.id = [] →
      findUnmet storeMet 1 (getRequirements storeMet subjC.id) = none) :=
  enroll_eligibility_iff storeMet 1 subjC

/-- C2 counterexample: subject 3 requires subjects 1 and 2, the student has
neither, yet the handler reports only subject 1 (the first unmet requirement);
the unmet requirement on subject 2 is absent from the 400 response, so the
reported missing set is not the full set of unmet requirements. -/
theorem enroll_only_first_missing_reported :
    (postEnrollment storeTwoReqs enrollBodyC).fst = .prerequisiteNotMet 1 (some subjA) ∧
    reqCB ∈ getRequirements storeTwoReqs 3 ∧
    reqCB.requiredSubjectId = 2 ∧
    hasCompleted storeTwoReqs 1 reqCB = false := by
  refine ⟨?_, ?_, rfl, ?_⟩ <;> decide

/-- C2 (amended): when POST /api/enrollments rejects for prerequisites, the
reported missing subject is exactly the first unmet requirement in the order
of the subject's requirement list; every requirement before it is met, and
later unmet requirements are not reported. -/
theorem enroll_reports_first_unmet (st : Store) (b : InsertEnrollment) (subj : Subject)
    (sid : Nat) (ms : Option Subject)
    (h1 : getSubject st b.subjectId = some subj)
    (h2 : (postEnrollment st b).fst = .prerequisiteNotMet sid ms) :
    ∃ r pre post,
      getRequirements st subj.id = pre ++ r :: post ∧
      r.requiredSubjectId = sid ∧ ms = getSubject st sid ∧
      hasCompleted st b.studentId r = false ∧
      (∀ r2 ∈ pre, hasCompleted st b.studentId r2 = true) := by
  cases hf : findUnmet st b.studentId (getRequirements st subj.id) with
  | none =>
      simp only [postEnrollment, h1, hf] at h2
      by_cases hc : b.type = "cursada" <;> simp [hc] at h2
  | some r =>
      simp only [postEnrollment, h1, hf, EnrollResult.prerequisiteNotMet.injEq] at h2
      obtain ⟨hsid, hms⟩ := h2
      obtain ⟨hunmet, pre, post, hl, hpre⟩ := findUnmet_spec st b.studentId _ r hf
      exact ⟨r, pre, post, hl, hsid, by rw [← hms, ← hsid], hunmet, hpre⟩

/-- C2 amended witness: at the concrete store with two unmet requirements. -/
theorem enroll_reports_first_unmet_witness :
    getSubject storeTwoReqs enrollBodyC.subjectId = some subjC ∧
    (postEnrollment storeTwoReqs enrollBodyC).fst = .prerequisiteNotMet 1 (some subjA) ∧
    ∃ r pre post,
      getRequirements storeTwoReqs subjC.id = pre ++ r :: post ∧
      r.requiredSubjectId = 1 ∧ (some subjA) = getSubject storeTwoReqs 1 ∧
      hasCompleted storeTwoReqs enrollBodyC.studentId r = false ∧
      (∀ r2 ∈ pre, hasCompleted storeTwoReqs enrollBodyC.studentId r2 = true) :=
  ⟨by decide, by decide,
   enroll_reports_first_unmet storeTwoReqs enrollBodyC subjC 1 (some subjA)
     (by decide) (by decide)⟩

/-- C3: a cursada enrollment request for a subject with at least one unmet
prerequisite is rejected with the prerequisite error and leaves the store
unchanged: no Enrollment row and no StudentSubject row is written. -/
theorem enroll_unmet_rejects_without_write (st : Store) (b : InsertEnrollment) (subj : Subject)
    (h1 : getSubject st b.subjectId = some subj)
    (h2 : ∃ r ∈ getRequirements st subj.id, hasCompleted st b.studentId r = false)
    (_h3 : b.type = "cursada") :
    ∃ sid ms, postEnrollment st b = (.prerequisiteNotMet sid ms, st) := by
  have hne : findUnmet st b.studentId (getRequirements st subj.id) ≠ none := by
    intro hnone
    rw [findUnmet_eq_none_iff] at hnone
    obtain ⟨r, hr, hf⟩ := h2
    rw [hnone r hr] at hf
    cases hf
  obtain ⟨r, hr⟩ := Option.ne_none_iff_exists'.mp hne
  refine ⟨r.requiredSubjectId, getSubject st r.requiredSubjectId, ?_⟩
  simp [postEnrollment, h1, hr]

/-- C3 witness: rejection at the concrete store, with the store unchanged. -/
theorem enroll_unmet_rejects_without_write_witness :
    getSubject storeTwoReqs enrollBodyC.subjectId = some subjC ∧
    (∃ r ∈ getRequirements storeTwoReqs subjC.id,
      hasCompleted storeTwoReqs enrollBodyC.studentId r = false) ∧
    enrollBodyC.type = "cursada" ∧
    ∃ sid ms, postEnrollment storeTwoReqs enrollBodyC = (.prerequisiteNotMet sid ms, storeTwoReqs) :=
  ⟨by decide, by decide, rfl,
   enroll_unmet_rejects_without_write storeTwoReqs enrollBodyC subjC
     (by decide) (by decide) rfl⟩

/-- C4: a cursada enrollment request whose prerequisites are all met succeeds
and appends exactly one Enrollment row and exactly one StudentSubject row in
status cursando with null grade, date, book and folio. -/
theorem enroll_met_creates_rows (st : Store) (b : InsertEnrollment) (subj : Subject)
    (h1 : getSubject st b.subjectId = some subj)
    (h2 : ∀ r ∈ getRequirements st subj.id, hasCompleted st b.studentId r = true)
    (h3 : b.type = "cursada") :
    postEnrollment st b =
      (.created { id := st.nextEnrollmentId, studentId := b.studentId, subjectId := b.subjectId,
                  type := b.type, examDate := b.examDate },
       { st with
          enrollments := st.enrollments ++
            [{ id := st.nextEnrollmentId, studentId := b.studentId, subjectId := b.subjectId,
               type := b.type, examDate := b.examDate }],
          nextEnrollmentId := st.nextEnrollmentId + 1,
          studentSubjects := st.studentSubjects ++
            [{ id := st.nextStudentSubjectId, studentId := b.studentId, subjectId := b.subjectId,
               status := "cursando", grade := none, date := none, book := none, folio := none }],
          nextStudentSubjectId := st.nextStudentSubjectId + 1 }) := by
  have h2n : findUnmet st b.studentId (getRequirements st subj.id) = none :=
    (findUnmet_eq_none_iff st b.studentId _).mpr h2
  simp [postEnrollment, h1, h2n, createEnrollment, addStudentSubject, h3]

/-- C4 witness: the created rows at the concrete store with met prerequisites. -/
theorem enroll_met_creates_rows_witness :
    getSubject storeMet enrollBodyC.subjectId = some subjC ∧
    (∀ r ∈ getRequirements storeMet subjC.id,
      hasCompleted storeMet enrollBodyC.studentId r = true) ∧
    enrollBodyC.type = "cursada" ∧
    postEnrollment storeMet enrollBodyC =
      (.created { id := storeMet.nextEnrollmentId, studentId := enrollBodyC.studentId,
                  subjectId := enrollBodyC.subjectId, type := enrollBodyC.type,
                  examDate := enrollBodyC.examDate },
       { storeMet with
          enrollments := storeMet.enrollments ++
            [{ id := storeMet.nextEnrollmentId, studentId := enrollBodyC.studentId,
               subjectId := enrollBodyC.subjectId, type := enrollBodyC.type,
               examDate := enrollBodyC.examDate }],
          nextEnrollmentId := storeMet.nextEnrollmentId + 1,
          studentSubjects := storeMet.studentSubjects ++
            [{ id := storeMet.nextStudentSubjectId, studentId := enrollBodyC.studentId,
               subjectId := enrollBodyC.subjectId, status := "cursando", grade := none,
               date := none, book := none, folio := none }],
          nextStudentSubjectId := storeMet.nextStudentSubjectId + 1 }) :=
  ⟨by decide, by decide, rfl,
   enroll_met_creates_rows storeMet enrollBodyC subjC (by decide) (by decide) rfl⟩

/-- C7: every enrollment request that passes validation creates exactly one
Enrollment row whatever its type; a StudentSubject row in state cursando is
additionally appended only for type cursada, and a request of another type
(such as examen) leaves the student-subject table untouched. -/
theorem enroll_creates_enrollment_both_types (st : Store) (b : InsertEnrollment) (subj : Subject)
    (h1 : getSubject st b.subjectId = some subj)
    (h2 : ∀ r ∈ getRequirements st subj.id, hasCompleted st b.studentId r = true) :
    (postEnrollment st b).fst =
      .created { id := st.nextEnrollmentId, studentId := b.studentId, subjectId := b.subjectId,
                 type := b.type, examDate := b.examDate } ∧
    (postEnrollment st b).snd.enrollments = st.enrollments ++
      [{ id := st.nextEnrollmentId, studentId := b.studentId, subjectId := b.subjectId,
         type := b.type, examDate := b.examDate }] ∧
    (b.type = "cursada" →
      (postEnrollment st b).snd.studentSubjects = st.studentSubjects ++
        [{ id := st.nextStudentSubjectId, studentId := b.studentId, subjectId := b.subjectId,
           status := "cursando", grade := none, date := none, book := none, folio := none }]) ∧
    (b.type ≠ "cursada" →
      (postEnrollment st b).snd.studentSubjects = st.studentSubjects) := by
  have h2n : findUnmet st b.studentId (getRequirements st subj.id) = none :=
    (findUnmet_eq_none_iff st b.studentId _).mpr h2
  by_cases ht : b.type = "cursada" <;>
    simp [postEnrollment, h1, h2n, createEnrollment, addStudentSubject, ht]

/-- C7 witness: an examen enrollment at the concrete store creates the
Enrollment row and no StudentSubject row. -/
theorem enroll_creates_enrollment_both_types_witness :
    getSubject storeMet enrollBodyE.subjectId = some subjC ∧
    (∀ r ∈ getRequirements storeMet subjC.id,
      hasCompleted storeMet enrollBodyE.studentId r = true) ∧
    ((postEnrollment storeMet enrollBodyE).fst =
      .created { id := storeMet.nextEnrollmentId, studentId := enrollBodyE.studentId,
                 subjectId := enrollBodyE.subjectId, type := enrollBodyE.type,
                 examDate := enrollBodyE.examDate } ∧
     (postEnrollment storeMet enrollBodyE).snd.enrollments = storeMet.enrollments ++
       [{ id := storeMet.nextEnrollmentId, studentId := enrollBodyE.studentId,
          subjectId := enrollBodyE.subjectId, type := enrollBodyE.type,
          examDate := enrollBodyE.examDate }] ∧
     (enrollBodyE.type = "cursada" →
       (postEnrollment storeMet enrollBodyE).snd.studentSubjects = storeMet.studentSubjects ++
         [{ id := storeMet.nextStudentSubjectId, studentId := enrollBodyE.studentId,
            subjectId := enrollBodyE.subjectId, status := "cursando", grade := none,
            date := none, book := none, folio := none }]) ∧
     (enrollBodyE.type ≠ "cursada" →
       (postEnrollment storeMet enrollBodyE).snd.studentSubjects = storeMet.studentSubjects)) :=
  ⟨by decide, by decide,
   enroll_creates_enrollment_both_types storeMet enrollBodyE subjC (by decide) (by decide)⟩

/-- When the SET clause does not write null into the NOT NULL status column,
the row update succeeds and each field is merged as jsSetOpt describes. -/
theorem applyUpdate_ok (row : StudentSubject) (d : UpdateData) (hd : d.status ≠ JsVal.null) :
    applyUpdate row d = .ok
      { row with
          status := match d.status with | JsVal.val s => s | _ => row.status,
          grade := jsSetOpt d.grade row.grade,
          date := jsSetOpt d.date row.date,
          book := jsSetOpt d.book row.book,
          folio := jsSetOpt d.folio row.folio } := by
  cases hs : d.status with
  | null => exact absurd hs hd
  | undef => simp [applyUpdate, hs]
  | val s => simp [applyUpdate, hs]

/-- C5 counterexample: accrediting with grade 11 is not rejected: the handler
performs no range check, answers 200 and persists grade 11, though the claim
requires a ValidationError for grades outside 4..10. -/
theorem patch_accepts_out_of_range_grade :
    patchStudentSubject storeOneRow 1 bodyGrade11 =
      (.updated { id := 1, studentId := 1, subjectId := 1, status := "acreditada",
                  grade := some 11, date := none, book := none, folio := none },
       { storeOneRow with studentSubjects :=
          [{ id := 1, studentId := 1, subjectId := 1, status := "acreditada",
             grade := some 11, date := none, book := none, folio := none }] }) ∧
    patchStatusCode (patchStudentSubject storeOneRow 1 bodyGrade11).fst = 200 := by
  refine ⟨?_, ?_⟩ <;> decide

/-- C5 (amended): when updateStatus sets status acreditada a truthy grade is
required (a request without one is rejected with the validation error), but
no range check is performed: every non-zero grade, 11 included, is accepted
and persisted verbatim; in particular grade 7 persists as 7. -/
theorem patch_acreditada_grade_semantics (st : Store) (id : Nat) (row : StudentSubject)
    (b : PatchBody) (g : Int)
    (hb : b.status = JsVal.val "acreditada")
    (hrow : st.studentSubjects.find? (fun ss => ss.id == id) = some row) :
    (jsTruthyInt b.grade = false → patchStudentSubject st id b = (.gradeRequired, st)) ∧
    (b.grade = JsVal.val g → g ≠ 0 →
      ∃ newRow st2, patchStudentSubject st id b = (.updated newRow, st2) ∧
        newRow.grade = some g ∧
        st2.studentSubjects =
          st.studentSubjects.map (fun ss => if ss.id == id then newRow else ss)) := by
  have hinv : invalidStatusCheck b = false := by
    unfold invalidStatusCheck
    rw [hb]
    decide
  constructor
  · intro hg
    have hreq : gradeRequiredCheck b = true := by
      unfold gradeRequiredCheck
      rw [hb, hg]
      decide
    simp [patchStudentSubject, hinv, hreq]
  · intro hg hg0
    have htr : jsTruthyInt b.grade = true := by
      unfold jsTruthyInt
      rw [hg]
      simp [hg0]
    have hreq : gradeRequiredCheck b = false := by
      unfold gradeRequiredCheck
      rw [htr]
      simp
    have happ : applyUpdate row (patchUpdateData b) = .ok
        { row with
          status := "acreditada",
          grade := some g,
          date := jsSetOpt (patchUpdateData b).date row.date,
          book := jsSetOpt b.book row.book,
          folio := jsSetOpt b.folio row.folio } := by
      rw [applyUpdate_ok row (patchUpdateData b) (by simp [patchUpdateData, hb])]
      simp [patchUpdateData, hb, hg, hg0, jsSetOpt]
    have hpatch : patchStudentSubject st id b =
        (.updated
          { row with
            status := "acreditada",
            grade := some g,
            date := jsSetOpt (patchUpdateData b).date row.date,
            book := jsSetOpt b.book row.book,
            folio := jsSetOpt b.folio row.folio },
         { st with
           studentSubjects := st.studentSubjects.map fun ss =>
             if ss.id == id then
               { row with
                 status := "acreditada",
                 grade := some g,
                 date := jsSetOpt (patchUpdateData b).date row.date,
                 book := jsSetOpt b.book row.book,
                 folio := jsSetOpt b.folio row.folio }
             else ss }) := by
      simp [patchStudentSubject, hinv, hreq, updateStudentSubject, hrow, happ]
    exact ⟨_, _, hpatch, rfl, rfl⟩

/-- C5 witness: grade 7 is accepted and persisted at the concrete store. -/
theorem patch_acreditada_grade_semantics_witness :
    bodyGrade7.status = JsVal.val "acreditada" ∧
    storeOneRow.studentSubjects.find? (fun ss => ss.id == 1) = some rowCursando ∧
    ((jsTruthyInt bodyGrade7.grade = false →
       patchStudentSubject storeOneRow 1 bodyGrade7 = (.gradeRequired, storeOneRow)) ∧
     (bodyGrade7.grade = JsVal.val 7 → (7 : Int) ≠ 0 →
       ∃ newRow st2, patchStudentSubject storeOneRow 1 bodyGrade7 = (.updated newRow, st2) ∧
         newRow.grade = some 7 ∧
         st2.studentSubjects =
           storeOneRow.studentSubjects.map (fun ss => if ss.id == 1 then newRow else ss))) :=
  ⟨rfl, by decide,
   patch_acreditada_grade_semantics storeOneRow 1 rowCursando bodyGrade7 7 rfl (by decide)⟩

/-- C6 counterexample: the stored row has grade 7 and date 5; a request
supplying only a status (grade and date absent) nevertheless clears both to
null, so a field not supplied does not retain its previous value. -/
theorem patch_clears_unsupplied_grade :
    rowGraded.grade = some 7 ∧ rowGraded.date = some 5 ∧
    bodyLibre.grade = JsVal.undef ∧ bodyLibre.date = JsVal.undef ∧
    patchStudentSubject storeGraded 1 bodyLibre =
      (.updated { id := 1, studentId := 1, subjectId := 1, status := "libre", grade := none,
                  date := none, book := some "L1", folio := some "F3" },
       { storeGraded with studentSubjects :=
          [{ id := 1, studentId := 1, subjectId := 1, status := "libre", grade := none,
             date := none, book := some "L1", folio := some "F3" }] }) := by
  refine ⟨rfl, rfl, rfl, rfl, ?_⟩
  decide

/-- C6 (amended): updateStatus merges fields asymmetrically: status, book and
folio follow supplied/absent semantics (absent fields keep the stored value,
book and folio supplied as null are cleared, supplied values overwrite), but
grade and date are rewritten on every request: set when a truthy value is
supplied and cleared to null otherwise, even when the request omits them. -/
theorem patch_field_update_semantics (st : Store) (id : Nat) (b : PatchBody) (row : StudentSubject)
    (hrow : st.studentSubjects.find? (fun ss => ss.id == id) = some row)
    (hv1 : invalidStatusCheck b = false)
    (hv2 : gradeRequiredCheck b = false)
    (hv3 : b.status ≠ JsVal.null) :
    ∃ newRow st2,
      patchStudentSubject st id b = (.updated newRow, st2) ∧
      newRow.status = (match b.status with | JsVal.val s => s | _ => row.status) ∧
      newRow.grade = (match b.grade with
        | JsVal.val n => if n = 0 then none else some n
        | _ => none) ∧
      newRow.date = (match b.date with | JsVal.val n => some n | _ => none) ∧
      newRow.book = (match b.book with
        | JsVal.undef => row.book | JsVal.null => none | JsVal.val s => some s) ∧
      newRow.folio = (match b.folio with
        | JsVal.undef => row.folio | JsVal.null => none | JsVal.val s => some s) ∧
      st2.studentSubjects =
        st.studentSubjects.map (fun ss => if ss.id == id then newRow else ss) := by
  have hd : (patchUpdateData b).status ≠ JsVal.null := hv3
  have happ := applyUpdate_ok row (patchUpdateData b) hd
  have hpatch : patchStudentSubject st id b =
      (.updated
        { row with
          status := (match (patchUpdateData b).status with | JsVal.val s => s | _ => row.status),
          grade := jsSetOpt (patchUpdateData b).grade row.grade,
          date := jsSetOpt (patchUpdateData b).date row.date,
          book := jsSetOpt (patchUpdateData b).book row.book,
          folio := jsSetOpt (patchUpdateData b).folio row.folio },
       { st with
         studentSubjects := st.studentSubjects.map fun ss =>
           if ss.id == id then
             { row with
               status := (match (patchUpdateData b).status with
                 | JsVal.val s => s
                 | _ => row.status),
               grade := jsSetOpt (patchUpdateData b).grade row.grade,
               date := jsSetOpt (patchUpdateData b).date row.date,
               book := jsSetOpt (patchUpdateData b).book row.book,
               folio := jsSetOpt (patchUpdateData b).folio row.folio }
           else ss }) := by
    simp [patchStudentSubject, hv1, hv2, updateStudentSubject, hrow, happ]
  refine ⟨_, _, hpatch, ?_, ?_, ?_, ?_, ?_, rfl⟩
  · cases hbs : b.status with
    | undef => simp [patchUpdateData, hbs]
    | null => exact absurd hbs hv3
    | val s => simp [patchUpdateData, hbs]
  · cases hbg : b.grade with
    | undef => simp [patchUpdateData, hbg, jsSetOpt]
    | null => simp [patchUpdateData, hbg, jsSetOpt]
    | val n => by_cases hn : n = 0 <;> simp [patchUpdateData, hbg, jsSetOpt, hn]
  · cases hbd : b.date with
    | undef => simp [patchUpdateData, hbd, jsSetOpt]
    | null => simp [patchUpdateData, hbd, jsSetOpt]
    | val n => simp [patchUpdateData, hbd, jsSetOpt]
  · cases hbb : b.book with
    | undef => simp [patchUpdateData, hbb, jsSetOpt]
    | null => simp [patchUpdateData, hbb, jsSetOpt]
    | val s => simp [patchUpdateData, hbb, jsSetOpt]
  · cases hbf : b.folio with
    | undef => simp [patchUpdateData, hbf, jsSetOpt]
    | null => simp [patchUpdateData, hbf, jsSetOpt]
    | val s => simp [patchUpdateData, hbf, jsSetOpt]

/-- C6 amended witness: the merge semantics evaluated at the concrete store. -/
theorem patch_field_update_semantics_witness :
    storeGraded.studentSubjects.find? (fun ss => ss.id == 1) = some rowGraded ∧
    invalidStatusCheck bodyLibre = false ∧
    gradeRequiredCheck bodyLibre = false ∧
    bodyLibre.status ≠ JsVal.null ∧
    (∃ newRow st2, patchStudentSubject storeGraded 1 bodyLibre = (.updated newRow, st2) ∧
      newRow.status = (match bodyLibre.status with | JsVal.val s => s | _ => rowGraded.status) ∧
      newRow.grade = (match bodyLibre.grade with
        | JsVal.val n => if n = 0 then none else some n
        | _ => none) ∧
      newRow.date = (match bodyLibre.date with | JsVal.val n => some n | _ => none) ∧
      newRow.book = (match bodyLibre.book with
        | JsVal.undef => rowGraded.book | JsVal.null => none | JsVal.val s => some s) ∧
      newRow.folio = (match bodyLibre.folio with
        | JsVal.undef => rowGraded.folio | JsVal.null => none | JsVal.val s => some s) ∧
      st2.studentSubjects =
        storeGraded.studentSubjects.map (fun ss => if ss.id == 1 then newRow else ss)) :=
  ⟨by decide, by decide, by decide, by decide,
   patch_field_update_semantics storeGraded 1 bodyLibre rowGraded
     (by decide) (by decide) (by decide) (by decide)⟩

/-- C8 counterexample: on an empty store the PATCH handler answers a missing
id with the generic 500 failure, not a 404 not-found response as claimed. -/
theorem patch_missing_row_returns_500 :
    patchStudentSubject emptyStore 7 bodyLibre = (.failed, emptyStore) ∧
    patchStatusCode (patchStudentSubject emptyStore 7 bodyLibre).fst = 500 ∧
    patchStatusCode (patchStudentSubject emptyStore 7 bodyLibre).fst ≠ 404 := by
  refine ⟨?_, ?_, ?_⟩ <;> decide

/-- C8 (amended): when the target StudentSubject id does not exist the store
operation fails with the not-found error and no record is modified, but the
HTTP layer's catch-all maps this to a generic 500 failure response rather
than a 404 not-found response. -/
theorem patch_missing_row_fails (st : Store) (id : Nat) (b : PatchBody)
    (h : st.studentSubjects.find? (fun ss => ss.id == id) = none)
    (hv1 : invalidStatusCheck b = false)
    (hv2 : gradeRequiredCheck b = false) :
    updateStudentSubject st id (patchUpdateData b) = .error .notFound ∧
    patchStudentSubject st id b = (.failed, st) ∧
    patchStatusCode (patchStudentSubject st id b).fst = 500 := by
  have h1 : updateStudentSubject st id (patchUpdateData b) = .error .notFound := by
    simp [updateStudentSubject, h]
  have h2 : patchStudentSubject st id b = (.failed, st) := by
    simp [patchStudentSubject, hv1, hv2, h1]
  exact ⟨h1, h2, by rw [h2]; rfl⟩

/-- C8 amended witness: the missing-id behaviour at the concrete empty store. -/
theorem patch_missing_row_fails_witness :
    emptyStore.studentSubjects.find? (fun ss => ss.id == 7) = none ∧
    invalidStatusCheck bodyLibre = false ∧
    gradeRequiredCheck bodyLibre = false ∧
    (updateStudentSubject emptyStore 7 (patchUpdateData bodyLibre) = .error .notFound ∧
     patchStudentSubject emptyStore 7 bodyLibre = (.failed, emptyStore) ∧
     patchStatusCode (patchStudentSubject emptyStore 7 bodyLibre).fst = 500) :=
  ⟨by decide, by decide, by decide,
   patch_missing_row_fails emptyStore 7 bodyLibre (by decide) (by decide) (by decide)⟩

/-- C9: deleting a subject removes every Requirement row referencing it on
either side together with the subject row itself, and keeps every requirement
referencing it on neither side; afterwards no Requirement row references the
deleted subject. -/
theorem deleteSubject_clears_references (st : Store) (id : Nat) :
    (∀ r ∈ (deleteSubject st id).requirements, r.subjectId ≠ id ∧ r.requiredSubjectId ≠ id) ∧
    (∀ s ∈ (deleteSubject st id).subjects, s.id ≠ id) ∧
    (∀ r ∈ st.requirements, r.subjectId ≠ id → r.requiredSubjectId ≠ id →
      r ∈ (deleteSubject st id).requirements) := by
  refine ⟨?_, ?_, ?_⟩
  · intro r hr
    simp only [deleteSubject, List.mem_filter] at hr
    have h2 := hr.2
    simp at h2
    exact h2
  · intro s hs
    simp only [deleteSubject, List.mem_filter] at hs
    have h2 := hs.2
    simp at h2
    exact h2
  · intro r hr h1 h2
    simp only [deleteSubject, List.mem_filter]
    refine ⟨hr, ?_⟩
    simp [h1, h2]

/-- C9 witness: the cascade evaluated on the concrete store. -/
theorem deleteSubject_clears_references_witness :
    (∀ r ∈ (deleteSubject storeTwoReqs 1).requirements,
      r.subjectId ≠ 1 ∧ r.requiredSubjectId ≠ 1) ∧
    (∀ s ∈ (deleteSubject storeTwoReqs 1).subjects, s.id ≠ 1) ∧
    (∀ r ∈ storeTwoReqs.requirements, r.subjectId ≠ 1 → r.requiredSubjectId ≠ 1 →
      r ∈ (deleteSubject storeTwoReqs 1).requirements) :=
  deleteSubject_clears_references storeTwoReqs 1

/-- C10: the status regular is asymmetric at the public interface: the
prerequisite check of enroll accepts a row with status regular as satisfying
a requirement, while the PATCH updateStatus handler rejects every request
supplying status regular as an invalid value; its recognized set (cursando,
acreditada, libre) all pass that validation. -/
theorem regular_status_asymmetry (st : Store) (sid : Nat) (r : Requirement) (ss : StudentSubject)
    (hmem : ss ∈ st.studentSubjects) (h1 : ss.studentId = sid)
    (h2 : ss.subjectId = r.requiredSubjectId) (h3 : ss.status = "regular") :
    hasCompleted st sid r = true ∧
    (∀ (st2 : Store) (id : Nat) (b : PatchBody), b.status = JsVal.val "regular" →
      patchStudentSubject st2 id b = (.invalidStatus, st2)) ∧
    (∀ s ∈ statusValues, invalidStatusCheck
      { status := JsVal.val s, grade := JsVal.undef, date := JsVal.undef,
        book := JsVal.undef, folio := JsVal.undef } = false) := by
  refine ⟨?_, ?_, ?_⟩
  · exact (hasCompleted_iff_row st sid r).mpr ⟨ss, hmem, h1, h2, Or.inr h3⟩
  · intro st2 id b hb
    have hinv : invalidStatusCheck b = true := by
      unfold invalidStatusCheck
      rw [hb]
      decide
    simp [patchStudentSubject, hinv]
  · decide

/-- C10 witness: the asymmetry at the concrete stores. -/
theorem regular_status_asymmetry_witness :
    ({ id := 2, studentId := 1, subjectId := 2, status := "regular", grade := none,
       date := none, book := none, folio := none } : StudentSubject) ∈ storeMet.studentSubjects ∧
    hasCompleted storeMet 1 reqCB = true ∧
    patchStudentSubject storeGraded 1 bodyRegular = (.invalidStatus, storeGraded) :=
  ⟨by decide,
   (regular_status_asymmetry storeMet 1 reqCB
      { id := 2, studentId := 1, subjectId := 2, status := "regular", grade := none,
        date := none, book := none, folio := none } (by decide) rfl rfl rfl).1,
   (regular_status_asymmetry storeMet 1 reqCB
      { id := 2, studentId := 1, subjectId := 2, status := "regular", grade := none,
        date := none, book := none, folio := none } (by decide) rfl rfl rfl).2.1
     storeGraded 1 bodyRegular rfl⟩

end Gestor
